import Mathlib

/-!
Verification of the kitchen_sync schema model, schema-match engine,
protocol version constants and PostgreSQL adapter normalization, as a
shallow embedding of the C++ sources (src/schema.h, src/schema_functions.cpp,
src/schema_functions.h, src/protocol_versions.h, src/sync_to.h,
src/ks_postgresql.cpp) into Lean.

Strings model C++ std::string (names here are ASCII, so character count and
byte count coincide); vectors become lists; functions that may throw
schema_mismatch or runtime_error become Except String valued functions.
-/

-- Canonical column type strings, from the ColumnTypes namespace in schema.h.
namespace ColumnTypes

def BLOB : String := "BLOB"
def TEXT : String := "TEXT"
def VCHR : String := "VARCHAR"
def FCHR : String := "CHAR"
def JSON : String := "JSON"
def UUID : String := "UUID"
def BOOL : String := "BOOL"
def SINT : String := "INT"
def UINT : String := "INT UNSIGNED"
def REAL : String := "REAL"
def DECI : String := "DECIMAL"
def DATE : String := "DATE"
def TIME : String := "TIME"
def DTTM : String := "DATETIME"
def SPAT : String := "SPATIAL"
def ENUM : String := "ENUM"
def UNKN : String := "UNKNOWN"

end ColumnTypes

/-- The string order models the C++ std::string lexicographic comparison;
it is decided through the equivalent lexicographic order on the character
lists, which evaluates by plain structural recursion. -/
instance (priority := 2000) instDecidableStringLt (a b : String) : Decidable (a < b) :=
  decidable_of_iff (a.toList < b.toList) String.lt_iff_toList_lt.symm

/-- DefaultType enumeration from schema.h. -/
inductive DefaultType where
  | no_default
  | sequence
  | default_value
  | default_expression
deriving DecidableEq

/-- The integer value of each DefaultType enumerator in schema.h. -/
def DefaultType.toNat : DefaultType → Nat
  | .no_default => 0
  | .sequence => 1
  | .default_value => 2
  | .default_expression => 3

/-- Column from schema.h.  flags is the ColumnFlags bitset (uint32_t). -/
structure Column where
  name : String
  nullable : Bool
  column_type : String
  size : Nat
  scale : Nat
  default_type : DefaultType
  default_value : String
  flags : Nat
  type_restriction : String
  reference_system : String
  enumeration_values : List String
  db_type_def : String
deriving DecidableEq

/-- The Column default constructor from schema.h: nullable, empty strings,
zero sizes, no default, no flags. -/
def Column.mk0 (name : String) : Column :=
  { name := name, nullable := true, column_type := "", size := 0, scale := 0,
    default_type := DefaultType.no_default, default_value := "", flags := 0,
    type_restriction := "", reference_system := "", enumeration_values := [],
    db_type_def := "" }

/-- Column operator== from schema.h: compares every field except db_type_def
(which the header notes is serialized but not compared). -/
def Column.eq (a b : Column) : Bool :=
  a.name == b.name &&
  a.nullable == b.nullable &&
  a.column_type == b.column_type &&
  a.size == b.size &&
  a.scale == b.scale &&
  a.default_type == b.default_type &&
  a.default_value == b.default_value &&
  a.flags == b.flags &&
  a.type_restriction == b.type_restriction &&
  a.reference_system == b.reference_system &&
  a.enumeration_values == b.enumeration_values

/-- KeyType enumeration from schema.h. -/
inductive KeyType where
  | unique_key
  | standard_key
  | spatial_key
deriving DecidableEq

/-- The integer value of each KeyType enumerator in schema.h, which is the
order used by Key operator< . -/
def KeyType.toNat : KeyType → Nat
  | .unique_key => 0
  | .standard_key => 1
  | .spatial_key => 2

/-- Key from schema.h: a name, a key type, and column indices into the owning
table's columns vector. -/
structure Key where
  name : String
  key_type : KeyType
  columns : List Nat
deriving DecidableEq

/-- Key constructor Key(name, key_type) from schema.h (columns start empty). -/
def Key.mk0 (name : String) (key_type : KeyType) : Key :=
  { name := name, key_type := key_type, columns := [] }

/-- Key::unique() from schema.h. -/
def Key.unique (k : Key) : Bool := k.key_type == KeyType.unique_key

/-- Key operator< from schema.h: by key_type first, then by name. -/
def Key.lt (a b : Key) : Prop :=
  if a.key_type = b.key_type then a.name < b.name else a.key_type.toNat < b.key_type.toNat

instance Key.lt.instDecidable : DecidableRel Key.lt := fun a b => by
  unfold Key.lt
  exact instDecidableIte

/-- Key operator== from schema.h. -/
def Key.eq (a b : Key) : Bool :=
  a.name == b.name && a.key_type == b.key_type && a.columns == b.columns

/-- PrimaryKeyType enumeration from schema.h. -/
inductive PrimaryKeyType where
  | no_available_key
  | explicit_primary_key
  | suitable_unique_key
deriving DecidableEq

/-- Table from schema.h. -/
structure Table where
  name : String
  columns : List Column
  primary_key_columns : List Nat
  primary_key_type : PrimaryKeyType
  keys : List Key
deriving DecidableEq

/-- Table constructor Table(name) from schema.h: everything else empty,
primary_key_type defaulted to no_available_key. -/
def Table.mk0 (name : String) : Table :=
  { name := name, columns := [], primary_key_columns := [],
    primary_key_type := PrimaryKeyType.no_available_key, keys := [] }

/-- Table::same_primary_key_as from schema.h: compares the primary key
columns of the explicit part only (a side whose primary_key_type is not
explicit_primary_key contributes zero explicit columns). -/
def Table.same_primary_key_as (t o : Table) : Bool :=
  let this_explicit_columns : Nat :=
    if t.primary_key_type = PrimaryKeyType.explicit_primary_key then t.primary_key_columns.length else 0
  let that_explicit_columns : Nat :=
    if o.primary_key_type = PrimaryKeyType.explicit_primary_key then o.primary_key_columns.length else 0
  this_explicit_columns == that_explicit_columns &&
    t.primary_key_columns.take this_explicit_columns == o.primary_key_columns.take this_explicit_columns

/-- Table operator== from schema.h: name, columns (by Column operator==),
same_primary_key_as, and keys (by Key operator==). -/
def Table.eq (t o : Table) : Bool :=
  t.name == o.name &&
  t.columns.length == o.columns.length && (t.columns.zip o.columns).all (fun p => Column.eq p.1 p.2) &&
  t.same_primary_key_as o &&
  t.keys.length == o.keys.length && (t.keys.zip o.keys).all (fun p => Key.eq p.1 p.2)

/-- Table operator< from schema.h: by name. -/
def Table.lt (a b : Table) : Prop := a.name < b.name

instance Table.lt.instDecidable : DecidableRel Table.lt := fun a b => by
  unfold Table.lt; exact inferInstance

/-- Database from schema.h. -/
structure Database where
  tables : List Table
deriving DecidableEq

/-! ## The schema-match engine, from schema_functions.cpp

Throwing schema_mismatch becomes returning Except.error with the same
message string. -/

/-- Modelled from the spec: columns_list comes from sql_functions.h, which is
not among the given sources; the spec only says the primary-key and key
mismatch messages name the column lists, so we render the names of the
indexed columns, comma separated in parentheses. -/
def columns_list (columns : List Column) (indices : List Nat) : String :=
  "(" ++ String.intercalate ", " (indices.map (fun i => ((columns.get? i).map Column.name).getD "")) ++ ")"

/-- check_column_match from schema_functions.cpp: an empty body (the FUTURE
comment notes column type, collation etc. are not yet checked), so it never
reports a mismatch. -/
def check_column_match (_table : Table) (_from_column _to_column : Column) : Except String Unit :=
  Except.ok ()

/-- check_columns_match from schema_functions.cpp: the two-cursor walk over
the column lists, from-side advancing every iteration.  The searches in the
second and third branches start at the current cursors, exactly as the C++
find_if calls do. -/
def check_columns_match (table : Table) : List Column → List Column → Except String Unit
  | [], [] => Except.ok ()
  | [], to_column :: _ =>
    Except.error ("Extra column " ++ to_column.name ++ " on table " ++ table.name)
  | from_column :: _, [] =>
    Except.error ("Missing column " ++ from_column.name ++ " on table " ++ table.name)
  | from_column :: from_rest, to_column :: to_rest =>
    if to_column.name == from_column.name then
      match check_column_match table from_column to_column with
      | Except.error e => Except.error e
      | Except.ok _ => check_columns_match table from_rest to_rest
    else if (to_column :: to_rest).all (fun c => c.name != from_column.name) then
      Except.error ("Missing column " ++ from_column.name ++ " on table " ++ table.name)
    else if (from_column :: from_rest).all (fun c => c.name != to_column.name) then
      Except.error ("Extra column " ++ to_column.name ++ " on table " ++ table.name)
    else
      Except.error ("Misordered column " ++ from_column.name ++ " on table " ++ table.name ++ ", should have " ++ to_column.name ++ " first")

/-- check_primary_key_matches from schema_functions.cpp. -/
def check_primary_key_matches (table : Table) (from_primary_key_columns to_primary_key_columns : List Nat) : Except String Unit :=
  if from_primary_key_columns ≠ to_primary_key_columns then
    Except.error ("Mismatching primary key " ++ columns_list table.columns to_primary_key_columns ++ " on table " ++ table.name ++ ", should have " ++ columns_list table.columns from_primary_key_columns)
  else
    Except.ok ()

/-- check_key_match from schema_functions.cpp: requires equal unique flags and
equal column index lists. -/
def check_key_match (table : Table) (from_key to_key : Key) : Except String Unit :=
  if from_key.unique ≠ to_key.unique then
    Except.error ("Mismatching unique flag on table " ++ table.name ++ " key " ++ from_key.name)
  else if from_key.columns ≠ to_key.columns then
    Except.error ("Mismatching columns " ++ columns_list table.columns to_key.columns ++ " on table " ++ table.name ++ " key " ++ from_key.name ++ ", should have " ++ columns_list table.columns from_key.columns)
  else
    Except.ok ()

/-- The lockstep walk inside check_keys_match from schema_functions.cpp,
operating on the already-sorted key lists. -/
def check_keys_walk (table : Table) : List Key → List Key → Except String Unit
  | [], [] => Except.ok ()
  | [], to_key :: _ =>
    Except.error ("Extra key " ++ to_key.name ++ " on table " ++ table.name)
  | from_key :: _, [] =>
    Except.error ("Missing key " ++ from_key.name ++ " on table " ++ table.name)
  | from_key :: from_rest, to_key :: to_rest =>
    if from_key.name < to_key.name then
      Except.error ("Missing key " ++ from_key.name ++ " on table " ++ table.name)
    else if to_key.name < from_key.name then
      Except.error ("Extra key " ++ to_key.name ++ " on table " ++ table.name)
    else
      match check_key_match table from_key to_key with
      | Except.error e => Except.error e
      | Except.ok _ => check_keys_walk table from_rest to_rest

/-- The non-strict order corresponding to Key operator<, used to model
std::sort over keys. -/
def Key.le (a b : Key) : Prop := ¬ Key.lt b a

instance Key.le.instDecidable : DecidableRel Key.le := fun a b =>
  inferInstanceAs (Decidable (¬ Key.lt b a))

/-- check_keys_match from schema_functions.cpp: sort both lists with Key
operator< (std::sort), then walk them in lockstep. -/
def check_keys_match (table : Table) (from_keys to_keys : List Key) : Except String Unit :=
  check_keys_walk table (List.insertionSort Key.le from_keys) (List.insertionSort Key.le to_keys)

/-- check_table_match from schema_functions.cpp. -/
def check_table_match (from_table to_table : Table) : Except String Unit :=
  match check_columns_match from_table from_table.columns to_table.columns with
  | Except.error e => Except.error e
  | Except.ok _ =>
    match check_primary_key_matches from_table from_table.primary_key_columns to_table.primary_key_columns with
    | Except.error e => Except.error e
    | Except.ok _ => check_keys_match from_table from_table.keys to_table.keys

/-- The skip condition of skip_ignored_tables in schema_functions.cpp:
a table is passed over when its name is in ignore_tables, or only_tables is
nonempty and does not contain its name.  The C++ set of strings is modelled
as a list with membership. -/
def table_ignored (ignore_tables only_tables : List String) (table : Table) : Bool :=
  ignore_tables.contains table.name || (!only_tables.isEmpty && !only_tables.contains table.name)

/-- skip_ignored_tables from schema_functions.cpp: advance past ignored
tables. -/
def skip_ignored_tables (ignore_tables only_tables : List String) : List Table → List Table
  | [] => []
  | table :: rest =>
    if table_ignored ignore_tables only_tables table then
      skip_ignored_tables ignore_tables only_tables rest
    else
      table :: rest

/-- The lockstep walk inside check_tables_match from schema_functions.cpp,
operating on the already-sorted table lists.  The from cursor advances every
iteration past ignored tables; the to cursor is advanced past ignored tables
before every comparison and after every match, exactly as the C++ loop does
via skip_ignored_tables. -/
def check_tables_walk (ignore_tables only_tables : List String) : List Table → List Table → Except String Unit
  | [], to_tables =>
    match skip_ignored_tables ignore_tables only_tables to_tables with
    | [] => Except.ok ()
    | to_table :: _ => Except.error ("Extra table " ++ to_table.name)
  | from_table :: from_rest, to_tables =>
    if table_ignored ignore_tables only_tables from_table then
      check_tables_walk ignore_tables only_tables from_rest to_tables
    else
      match skip_ignored_tables ignore_tables only_tables to_tables with
      | [] => Except.error ("Missing table " ++ from_table.name)
      | to_table :: to_rest =>
        if from_table.name < to_table.name then
          Except.error ("Missing table " ++ from_table.name)
        else if to_table.name < from_table.name then
          Except.error ("Extra table " ++ to_table.name)
        else
          match check_table_match from_table to_table with
          | Except.error e => Except.error e
          | Except.ok _ => check_tables_walk ignore_tables only_tables from_rest to_rest

/-- The non-strict order corresponding to Table operator<, used to model
std::sort over tables. -/
def Table.le (a b : Table) : Prop := ¬ Table.lt b a

instance Table.le.instDecidable : DecidableRel Table.le := fun a b =>
  inferInstanceAs (Decidable (¬ Table.lt b a))

/-- check_tables_match from schema_functions.cpp: sort both lists with Table
operator< (std::sort), then walk them in lockstep, skipping ignored tables. -/
def check_tables_match (from_tables to_tables : List Table) (ignore_tables only_tables : List String) : Except String Unit :=
  check_tables_walk ignore_tables only_tables
    (List.insertionSort Table.le from_tables) (List.insertionSort Table.le to_tables)

/-- check_schema_match from schema_functions.cpp: currently only the tables
are compared. -/
def check_schema_match (from_database to_database : Database) (ignore_tables only_tables : List String) : Except String Unit :=
  check_tables_match from_database.tables to_database.tables ignore_tables only_tables

/-! ## Protocol versions, from protocol_versions.h and sync_to.h -/

def EARLIEST_PROTOCOL_VERSION_SUPPORTED : Int := 7

def LATEST_PROTOCOL_VERSION_SUPPORTED : Int := 9

def LAST_FILTERS_AFTER_SNAPSHOT_PROTOCOL_VERSION : Int := 7

def LAST_LEGACY_SCHEMA_FORMAT_VERSION : Int := 7

def FIRST_IDLE_COMMAND_VERSION : Int := 8

def FIRST_BLAKE3_VERSION : Int := 9

/-- The local constant PROTOCOL_VERSION_SUPPORTED defined inside the sync_to
function template in sync_to.h. -/
def sync_to.PROTOCOL_VERSION_SUPPORTED : Int := 1

/-- The first command sync_to writes to its peer, from sync_to.h:
Command("protocol", PROTOCOL_VERSION_SUPPORTED). -/
def sync_to.protocol_command : String × Int :=
  ("protocol", sync_to.PROTOCOL_VERSION_SUPPORTED)

/-! ## The PostgreSQL adapter, from ks_postgresql.cpp -/

/-- The per-column body of the loop in
PostgreSQLClient::convert_unsupported_database_schema: unsigned integers
become signed, 1-byte and 3-byte integers take the nearest supported size,
TEXT and BLOB sizes collapse to zero. -/
def convert_unsupported_column (column : Column) : Column :=
  let column :=
    if column.column_type = ColumnTypes.UINT then
      { column with column_type := ColumnTypes.SINT }
    else column
  let column :=
    if column.column_type = ColumnTypes.SINT ∧ column.size = 1 then
      { column with size := 2 }
    else column
  let column :=
    if column.column_type = ColumnTypes.SINT ∧ column.size = 3 then
      { column with size := 4 }
    else column
  let column :=
    if column.column_type = ColumnTypes.TEXT ∨ column.column_type = ColumnTypes.BLOB then
      { column with size := 0 }
    else column
  column

/-- The per-key body of the loop in
PostgreSQLClient::convert_unsupported_database_schema: postgresql has a
hardcoded limit of 63 characters for index names. -/
def convert_unsupported_key (key : Key) : Key :=
  if key.name.length ≥ 63 then
    { key with name := key.name.take 63 }
  else key

/-- PostgreSQLClient::convert_unsupported_database_schema from
ks_postgresql.cpp: applies the column and key conversions to every table in
place. -/
def convert_unsupported_database_schema (database : Database) : Database :=
  { tables := database.tables.map (fun table =>
      { table with
        columns := table.columns.map convert_unsupported_column,
        keys := table.keys.map convert_unsupported_key }) }

/-- Modelled from the spec: PostgreSQLClient::escape_string_value calls
PQescapeStringConn of libpq, which is outside the given sources; the spec
says strings are escaped by doubling the single quote and escaping the
backslash. -/
def escape_string_value (value : String) : String :=
  String.join (value.data.map (fun c =>
    if c = '\x27' then "\x27\x27" else if c = '\\' then "\\\\" else String.singleton c))

/-- Modelled from the spec: PQescapeByteaConn of libpq is outside the given
sources; the spec says byte strings use the standard postgres bytea escape,
whose exact rendering none of the claims depends on, so we render the bytes
as a list of code points after the bytea escape prefix. -/
def escaped_bytea_body (value : String) : String :=
  "\\x" ++ String.intercalate "." (value.data.map (fun c => toString c.toNat))

/-- PostgreSQLClient::append_escaped_string_value_to from ks_postgresql.cpp:
the escaped string wrapped in single quotes, appended to result. -/
def append_escaped_string_value_to (result value : String) : String :=
  result ++ "\x27" ++ escape_string_value value ++ "\x27"

/-- PostgreSQLClient::append_escaped_bytea_value_to from ks_postgresql.cpp:
the bytea-escaped string wrapped in single quotes, appended to result. -/
def append_escaped_bytea_value_to (result value : String) : String :=
  result ++ "\x27" ++ escaped_bytea_body value ++ "\x27"

/-- PostgreSQLClient::append_escaped_spatial_value_to from ks_postgresql.cpp:
ST_GeomFromWKB of the bytea-escaped value past the 4-byte SRID prefix, with
the SRID as second argument. -/
def append_escaped_spatial_value_to (result value : String) : String :=
  append_escaped_bytea_value_to (result ++ "ST_GeomFromWKB(") (value.drop 4) ++ "," ++
    toString ((value.take 4).data.foldr (fun c acc => acc * 256 + c.toNat) 0) ++ ")"

/-- PostgreSQLClient::append_escaped_column_value_to from ks_postgresql.cpp:
dispatches on the column type. -/
def append_escaped_column_value_to (result : String) (column : Column) (value : String) : String :=
  if column.column_type = ColumnTypes.BLOB then
    append_escaped_bytea_value_to result value
  else if column.column_type = ColumnTypes.SPAT then
    append_escaped_spatial_value_to result value
  else
    append_escaped_string_value_to result value

/-- PostgreSQLClient::column_sequence_name from ks_postgresql.cpp. -/
def column_sequence_name (table : Table) (column : Column) : String :=
  table.name ++ "_" ++ column.name ++ "_seq"

/-- PostgreSQLClient::column_default from ks_postgresql.cpp, embedded exactly
as written: the default_expression case has no break before the default
label, so after appending the default value it falls through into the
default case and throws the runtime_error. -/
def column_default (table : Table) (column : Column) : Except String String :=
  let result := " DEFAULT "
  match column.default_type with
  | DefaultType.no_default =>
    Except.ok (result ++ "NULL")
  | DefaultType.sequence =>
    Except.ok (result ++ "nextval(\x27" ++ escape_string_value (column_sequence_name table column) ++ "\x27::regclass)")
  | DefaultType.default_value =>
    if column.column_type = ColumnTypes.BOOL ∨
       column.column_type = ColumnTypes.SINT ∨
       column.column_type = ColumnTypes.UINT ∨
       column.column_type = ColumnTypes.REAL ∨
       column.column_type = ColumnTypes.DECI then
      Except.ok (result ++ column.default_value)
    else
      Except.ok (append_escaped_column_value_to result column column.default_value)
  | DefaultType.default_expression =>
    let _result := result ++ column.default_value
    Except.error ("Don\x27t know how to express default of " ++ column.name ++ " (" ++ toString column.default_type.toNat ++ ")")

/-- PostgreSQLClient::column_default as the spec directs it to be
implemented: identical to column_default but with the missing break
restored, so a default_expression renders as its expression text. -/
def column_default_corrected (table : Table) (column : Column) : Except String String :=
  let result := " DEFAULT "
  match column.default_type with
  | DefaultType.default_expression =>
    Except.ok (result ++ column.default_value)
  | _ => column_default table column

/-! ## Derived definitions used by the verification -/

/-- Everything the schema-match engine inspects about a table: its name, the
names of its columns in order, its primary key columns, and its keys.  The
engine never reads any other column attribute. -/
def table_view (t : Table) : String × List String × List Nat × List Key :=
  (t.name, t.columns.map Column.name, t.primary_key_columns, t.keys)

/-- Erase the db_type_def attribute of a column.  Two databases whose scrubs
are equal are identical except possibly for db_type_def strings. -/
def scrub_column (c : Column) : Column := { c with db_type_def := "" }

def scrub_table (t : Table) : Table := { t with columns := t.columns.map scrub_column }

def scrub_database (db : Database) : Database := ⟨db.tables.map scrub_table⟩

/-! Concrete example data used by witnesses and counterexamples. -/

def unknown_column_f : Column :=
  { Column.mk0 "c" with column_type := ColumnTypes.UNKN, db_type_def := "custom_type_one" }

def unknown_column_t : Column :=
  { Column.mk0 "c" with column_type := ColumnTypes.UNKN, db_type_def := "custom_type_two" }

def unknown_db_f : Database := ⟨[{ Table.mk0 "t" with columns := [unknown_column_f] }]⟩

def unknown_db_t : Database := ⟨[{ Table.mk0 "t" with columns := [unknown_column_t] }]⟩

def lenient_from_column : Column :=
  { Column.mk0 "id" with column_type := ColumnTypes.SINT, nullable := false, size := 8 }

def lenient_to_column : Column :=
  { Column.mk0 "id" with
    column_type := ColumnTypes.VCHR
    nullable := true
    size := 255
    scale := 3
    default_type := DefaultType.default_value
    default_value := "0"
    flags := 6
    type_restriction := "point"
    reference_system := "4326"
    enumeration_values := ["x"]
    db_type_def := "weird" }

def lenient_from_table : Table :=
  { Table.mk0 "t" with
    columns := [lenient_from_column]
    primary_key_columns := [0]
    primary_key_type := PrimaryKeyType.explicit_primary_key
    keys := [{ Key.mk0 "k" KeyType.unique_key with columns := [0] }] }

def lenient_to_table : Table := { lenient_from_table with columns := [lenient_to_column] }

def surrogate_table_f : Table :=
  { Table.mk0 "t" with
    columns := [Column.mk0 "a", Column.mk0 "b"]
    primary_key_columns := [0]
    primary_key_type := PrimaryKeyType.suitable_unique_key
    keys := [{ Key.mk0 "k" KeyType.unique_key with columns := [0] }] }

def surrogate_table_t : Table :=
  { surrogate_table_f with
    primary_key_columns := [1]
    primary_key_type := PrimaryKeyType.no_available_key }

def expression_default_column : Column :=
  { Column.mk0 "c" with default_type := DefaultType.default_expression, default_value := "now()" }

/-! ## Helper lemmas about the key order -/

theorem KeyType.toNat_injective : ∀ {a b : KeyType}, a.toNat = b.toNat → a = b := by
  intro a b h
  cases a <;> cases b <;> simp_all [KeyType.toNat]

theorem Key.lt_iff (a b : Key) :
    Key.lt a b ↔ (a.key_type.toNat < b.key_type.toNat ∨ (a.key_type = b.key_type ∧ a.name < b.name)) := by
  unfold Key.lt
  by_cases h : a.key_type = b.key_type
  · have ht : a.key_type.toNat = b.key_type.toNat := by rw [h]
    simp [h, ht]
  · simp only [if_neg h]
    constructor
    · exact fun hlt => Or.inl hlt
    · rintro (hlt | ⟨he, _⟩)
      · exact hlt
      · exact absurd he h

theorem Key.lt_asymm {a b : Key} (h : Key.lt a b) : ¬ Key.lt b a := by
  rw [Key.lt_iff] at h ⊢
  rintro (h2 | ⟨he2, hn2⟩)
  · rcases h with h1 | ⟨he1, _⟩
    · exact Nat.lt_asymm h1 h2
    · rw [he1] at h2; exact Nat.lt_irrefl _ h2
  · rcases h with h1 | ⟨_, hn1⟩
    · rw [he2] at h1; exact Nat.lt_irrefl _ h1
    · exact absurd hn2 (not_lt.mpr (le_of_lt hn1))

instance Key.le.instIsTotal : IsTotal Key Key.le where
  total a b := by
    unfold Key.le
    by_cases h : Key.lt b a
    · exact Or.inr (Key.lt_asymm h)
    · exact Or.inl h

instance Key.le.instIsTrans : IsTrans Key Key.le where
  trans a b c hab hbc := by
    unfold Key.le at hab hbc ⊢
    rw [Key.lt_iff] at hab hbc ⊢
    push_neg at hab hbc
    obtain ⟨hab1, hab2⟩ := hab
    obtain ⟨hbc1, hbc2⟩ := hbc
    rintro (h | ⟨he, hn⟩)
    · exact Nat.lt_irrefl _ (Nat.lt_of_lt_of_le h (Nat.le_trans hab1 hbc1))
    · have h2 := hbc1
      have hca : c.key_type.toNat = a.key_type.toNat := by rw [he]
      rw [hca] at h2
      have hba : b.key_type = a.key_type := KeyType.toNat_injective (Nat.le_antisymm h2 hab1)
      have hcb : c.key_type = b.key_type := by rw [he, hba]
      have hn1 : a.name ≤ b.name := hab2 hba
      have hn2 : b.name ≤ c.name := hbc2 hcb
      exact absurd hn (not_lt.mpr (le_trans hn1 hn2))

/-! ## Reflexivity of the individual checks -/

theorem check_key_match_refl (table : Table) (k : Key) :
    check_key_match table k k = Except.ok () := by
  unfold check_key_match
  simp

theorem check_keys_walk_refl (table : Table) (ks : List Key) :
    check_keys_walk table ks ks = Except.ok () := by
  induction ks with
  | nil => rfl
  | cons k ks ih =>
    unfold check_keys_walk
    rw [if_neg (lt_irrefl k.name), if_neg (lt_irrefl k.name), check_key_match_refl]
    exact ih

theorem check_columns_match_ok_of_names (table : Table) :
    ∀ (fcs tcs : List Column), fcs.map Column.name = tcs.map Column.name →
      check_columns_match table fcs tcs = Except.ok () := by
  intro fcs
  induction fcs with
  | nil =>
    intro tcs h
    cases tcs with
    | nil => rfl
    | cons t ts => simp at h
  | cons f fs ih =>
    intro tcs h
    cases tcs with
    | nil => simp at h
    | cons t ts =>
      simp only [List.map_cons, List.cons.injEq] at h
      obtain ⟨hn, hrest⟩ := h
      unfold check_columns_match
      rw [if_pos (beq_iff_eq.mpr hn.symm)]
      exact ih ts hrest

theorem check_primary_key_matches_ok (table : Table) {f t : List Nat} (h : f = t) :
    check_primary_key_matches table f t = Except.ok () := by
  simp [check_primary_key_matches, h]

theorem check_table_match_ok_of_names (ft tt : Table)
    (hcols : ft.columns.map Column.name = tt.columns.map Column.name)
    (hpk : ft.primary_key_columns = tt.primary_key_columns)
    (hkeys : ft.keys = tt.keys) :
    check_table_match ft tt = Except.ok () := by
  unfold check_table_match
  rw [check_columns_match_ok_of_names ft ft.columns tt.columns hcols]
  rw [check_primary_key_matches_ok ft hpk]
  unfold check_keys_match
  rw [hkeys]
  exact check_keys_walk_refl ft _

/-! ## Helper lemmas about the table walk -/

theorem skip_ignored_tables_idem (ig onl : List String) (l : List Table) :
    skip_ignored_tables ig onl (skip_ignored_tables ig onl l) = skip_ignored_tables ig onl l := by
  induction l with
  | nil => rfl
  | cons t ts ih =>
    by_cases h : table_ignored ig onl t
    · simp [skip_ignored_tables, h, ih]
    · simp [skip_ignored_tables, h]

theorem skip_head_not_ignored (ig onl : List String) :
    ∀ {l : List Table} {t : Table} {rest : List Table},
      skip_ignored_tables ig onl l = t :: rest → table_ignored ig onl t = false := by
  intro l
  induction l with
  | nil => intro t rest h; simp [skip_ignored_tables] at h
  | cons x xs ih =>
    intro t rest h
    by_cases hx : table_ignored ig onl x
    · simp only [skip_ignored_tables, if_pos hx] at h
      exact ih h
    · simp only [skip_ignored_tables, if_neg hx] at h
      cases h
      simpa using hx

theorem check_tables_walk_nil (ig onl : List String) (tts : List Table) :
    check_tables_walk ig onl [] tts =
      match skip_ignored_tables ig onl tts with
      | [] => Except.ok ()
      | to_table :: _ => Except.error ("Extra table " ++ to_table.name) := by
  simp [check_tables_walk]

theorem check_tables_walk_cons_ignored (ig onl : List String) {f : Table}
    (h : table_ignored ig onl f = true) (fts tts : List Table) :
    check_tables_walk ig onl (f :: fts) tts = check_tables_walk ig onl fts tts := by
  simp [check_tables_walk, h]

theorem check_tables_walk_cons_not_ignored (ig onl : List String) {f : Table}
    (h : table_ignored ig onl f = false) (fts tts : List Table) :
    check_tables_walk ig onl (f :: fts) tts =
      match skip_ignored_tables ig onl tts with
      | [] => Except.error ("Missing table " ++ f.name)
      | to_table :: to_rest =>
        if f.name < to_table.name then
          Except.error ("Missing table " ++ f.name)
        else if to_table.name < f.name then
          Except.error ("Extra table " ++ to_table.name)
        else
          match check_table_match f to_table with
          | Except.error e => Except.error e
          | Except.ok _ => check_tables_walk ig onl fts to_rest := by
  simp [check_tables_walk, h]

theorem check_tables_walk_step (ig onl : List String) {f t : Table}
    (hf : table_ignored ig onl f = false) (ht : table_ignored ig onl t = false)
    (fts tts : List Table) :
    check_tables_walk ig onl (f :: fts) (t :: tts) =
      if f.name < t.name then
        Except.error ("Missing table " ++ f.name)
      else if t.name < f.name then
        Except.error ("Extra table " ++ t.name)
      else
        match check_table_match f t with
        | Except.error e => Except.error e
        | Except.ok _ => check_tables_walk ig onl fts tts := by
  rw [check_tables_walk_cons_not_ignored ig onl hf]
  rw [show skip_ignored_tables ig onl (t :: tts) = t :: tts from by
    simp [skip_ignored_tables, ht]]

theorem check_tables_walk_skip_from (ig onl : List String) (fts tts : List Table) :
    check_tables_walk ig onl fts tts =
      check_tables_walk ig onl (skip_ignored_tables ig onl fts) tts := by
  induction fts with
  | nil => rfl
  | cons f fs ih =>
    by_cases h : table_ignored ig onl f
    · rw [check_tables_walk_cons_ignored ig onl h]
      rw [show skip_ignored_tables ig onl (f :: fs) = skip_ignored_tables ig onl fs from by
        simp [skip_ignored_tables, h]]
      exact ih
    · have h' : table_ignored ig onl f = false := by simpa using h
      rw [show skip_ignored_tables ig onl (f :: fs) = f :: fs from by
        simp [skip_ignored_tables, h']]

theorem check_tables_walk_skip_to (ig onl : List String) (fts tts : List Table) :
    check_tables_walk ig onl fts tts =
      check_tables_walk ig onl fts (skip_ignored_tables ig onl tts) := by
  induction fts generalizing tts with
  | nil =>
    rw [check_tables_walk_nil, check_tables_walk_nil, skip_ignored_tables_idem]
  | cons f fs ih =>
    by_cases h : table_ignored ig onl f
    · rw [check_tables_walk_cons_ignored ig onl h, check_tables_walk_cons_ignored ig onl h]
      exact ih tts
    · have h' : table_ignored ig onl f = false := by simpa using h
      rw [check_tables_walk_cons_not_ignored ig onl h', check_tables_walk_cons_not_ignored ig onl h',
        skip_ignored_tables_idem]

theorem check_tables_walk_ok_of_view (ig onl : List String) :
    ∀ (fts tts : List Table), fts.map table_view = tts.map table_view →
      check_tables_walk ig onl fts tts = Except.ok () := by
  intro fts
  induction fts with
  | nil =>
    intro tts h
    cases tts with
    | nil => rfl
    | cons t ts => simp at h
  | cons f fs ih =>
    intro tts h
    cases tts with
    | nil => simp at h
    | cons t ts =>
      simp only [List.map_cons, List.cons.injEq] at h
      obtain ⟨hv, hrest⟩ := h
      have hname : f.name = t.name := congrArg Prod.fst hv
      have hcols : f.columns.map Column.name = t.columns.map Column.name := congrArg (fun v => v.2.1) hv
      have hpk : f.primary_key_columns = t.primary_key_columns := congrArg (fun v => v.2.2.1) hv
      have hkeys : f.keys = t.keys := congrArg (fun v => v.2.2.2) hv
      have hig : table_ignored ig onl f = table_ignored ig onl t := by
        unfold table_ignored; rw [hname]
      by_cases hf : table_ignored ig onl f
      · have ht : table_ignored ig onl t = true := by rw [← hig]; exact hf
        rw [check_tables_walk_cons_ignored ig onl hf]
        rw [check_tables_walk_skip_to]
        rw [show skip_ignored_tables ig onl (t :: ts) = skip_ignored_tables ig onl ts from by
          simp [skip_ignored_tables, ht]]
        rw [← check_tables_walk_skip_to]
        exact ih ts hrest
      · have hf' : table_ignored ig onl f = false := by simpa using hf
        have ht' : table_ignored ig onl t = false := by rw [← hig]; exact hf'
        rw [check_tables_walk_step ig onl hf' ht']
        rw [hname]
        rw [if_neg (lt_irrefl t.name), if_neg (lt_irrefl t.name)]
        rw [check_table_match_ok_of_names f t hcols hpk hkeys]
        exact ih ts hrest

/-! ## Sorting respects the table view -/

theorem orderedInsert_view {a b : Table} (hv : table_view a = table_view b) :
    ∀ {as bs : List Table}, as.map table_view = bs.map table_view →
      (List.orderedInsert Table.le a as).map table_view =
        (List.orderedInsert Table.le b bs).map table_view := by
  intro as
  induction as with
  | nil =>
    intro bs h
    cases bs with
    | nil => simp [hv]
    | cons y ys => simp at h
  | cons x xs ih =>
    intro bs h
    cases bs with
    | nil => simp at h
    | cons y ys =>
      simp only [List.map_cons, List.cons.injEq] at h
      obtain ⟨hxy, hrest⟩ := h
      have han : a.name = b.name := congrArg Prod.fst hv
      have hxn : x.name = y.name := congrArg Prod.fst hxy
      have hax : Table.le a x ↔ Table.le b y := by
        unfold Table.le Table.lt
        rw [han, hxn]
      by_cases hle : Table.le a x
      · rw [List.orderedInsert, if_pos hle, List.orderedInsert, if_pos (hax.mp hle)]
        simp [hv, hxy, hrest]
      · rw [List.orderedInsert, if_neg hle, List.orderedInsert, if_neg (fun hby => hle (hax.mpr hby))]
        simp only [List.map_cons]
        rw [hxy, ih hrest]

theorem insertionSort_view :
    ∀ {as bs : List Table}, as.map table_view = bs.map table_view →
      (List.insertionSort Table.le as).map table_view =
        (List.insertionSort Table.le bs).map table_view := by
  intro as
  induction as with
  | nil =>
    intro bs h
    cases bs with
    | nil => rfl
    | cons y ys => simp at h
  | cons x xs ih =>
    intro bs h
    cases bs with
    | nil => simp at h
    | cons y ys =>
      simp only [List.map_cons, List.cons.injEq] at h
      obtain ⟨hxy, hrest⟩ := h
      simp only [List.insertionSort]
      exact orderedInsert_view hxy (ih hrest)

/-! ## Scrubbing db_type_def does not change what the engine sees -/

theorem table_view_scrub (t : Table) : table_view (scrub_table t) = table_view t := by
  unfold table_view scrub_table
  simp only [List.map_map]
  have hcomp : (Column.name ∘ scrub_column) = Column.name := by
    funext c; rfl
  rw [hcomp]

/-! ## Claim theorems -/

/-- C1: Schema-match reflexivity: for every Database db and empty
ignore_tables/only_tables filter sets, check_schema_match(db, db) succeeds,
returning without any schema_mismatch. -/
theorem check_schema_match_refl (db : Database) :
    check_schema_match db db [] [] = Except.ok () := by
  unfold check_schema_match check_tables_match
  exact check_tables_walk_ok_of_view [] [] _ _ rfl

/-- C2: Table-level mismatch detection: after filtering both sides through
ignore_tables/only_tables and sorting by name, the lockstep walk reports
Missing table X (X the from-side name) whenever the to side is exhausted or
the current to name is greater, Extra table Y whenever the to name is less
or a to table remains after the from-walk; in particular from = [a, b],
to = [a] gives Missing table b. -/
theorem check_tables_match_mismatch_spec :
    (∀ (ig onl : List String) (fts tts : List Table) (ft : Table) (fts' : List Table),
        skip_ignored_tables ig onl fts = ft :: fts' →
        skip_ignored_tables ig onl tts = [] →
        check_tables_walk ig onl fts tts = Except.error ("Missing table " ++ ft.name))
    ∧ (∀ (ig onl : List String) (fts tts : List Table) (ft tt : Table) (fts' tts' : List Table),
        skip_ignored_tables ig onl fts = ft :: fts' →
        skip_ignored_tables ig onl tts = tt :: tts' →
        ft.name < tt.name →
        check_tables_walk ig onl fts tts = Except.error ("Missing table " ++ ft.name))
    ∧ (∀ (ig onl : List String) (fts tts : List Table) (ft tt : Table) (fts' tts' : List Table),
        skip_ignored_tables ig onl fts = ft :: fts' →
        skip_ignored_tables ig onl tts = tt :: tts' →
        tt.name < ft.name →
        check_tables_walk ig onl fts tts = Except.error ("Extra table " ++ tt.name))
    ∧ (∀ (ig onl : List String) (fts tts : List Table) (tt : Table) (tts' : List Table),
        skip_ignored_tables ig onl fts = [] →
        skip_ignored_tables ig onl tts = tt :: tts' →
        check_tables_walk ig onl fts tts = Except.error ("Extra table " ++ tt.name))
    ∧ check_schema_match ⟨[Table.mk0 "a", Table.mk0 "b"]⟩ ⟨[Table.mk0 "a"]⟩ [] [] =
        Except.error "Missing table b" := by
  refine ⟨?_, ?_, ?_, ?_, ?_⟩
  · intro ig onl fts tts ft fts' hf ht
    rw [check_tables_walk_skip_from, hf,
      check_tables_walk_cons_not_ignored ig onl (skip_head_not_ignored ig onl hf), ht]
  · intro ig onl fts tts ft tt fts' tts' hf ht hlt
    rw [check_tables_walk_skip_from, hf,
      check_tables_walk_cons_not_ignored ig onl (skip_head_not_ignored ig onl hf), ht]
    simp [hlt]
  · intro ig onl fts tts ft tt fts' tts' hf ht hlt
    have hnlt : ¬ ft.name < tt.name := not_lt.mpr (le_of_lt hlt)
    rw [check_tables_walk_skip_from, hf,
      check_tables_walk_cons_not_ignored ig onl (skip_head_not_ignored ig onl hf), ht]
    simp [hnlt, hlt]
  · intro ig onl fts tts tt tts' hf ht
    rw [check_tables_walk_skip_from, hf, check_tables_walk_nil, ht]
  · rfl

/-- Witness for C2: applies the greater-name case at a concrete input. -/
theorem check_tables_match_mismatch_spec_witness :
    check_tables_walk [] [] [Table.mk0 "c"] [Table.mk0 "d"] = Except.error "Missing table c" :=
  check_tables_match_mismatch_spec.2.1 [] [] [Table.mk0 "c"] [Table.mk0 "d"]
    (Table.mk0 "c") (Table.mk0 "d") [] [] rfl rfl (by decide)

/-- C3: Misordered-column detection: when the current from and to column
names differ but the from name still occurs in the remaining to columns and
the to name still occurs in the remaining from columns, the walk reports
Misordered column X on table T, should have Y first; in particular
from = [x, y], to = [y, x] gives exactly that message. -/
theorem misordered_column_detection :
    (∀ (table : Table) (fc tc : Column) (fcs tcs : List Column),
        tc.name ≠ fc.name →
        (∃ c ∈ tc :: tcs, c.name = fc.name) →
        (∃ c ∈ fc :: fcs, c.name = tc.name) →
        check_columns_match table (fc :: fcs) (tc :: tcs) =
          Except.error ("Misordered column " ++ fc.name ++ " on table " ++ table.name ++ ", should have " ++ tc.name ++ " first"))
    ∧ check_columns_match (Table.mk0 "T") [Column.mk0 "x", Column.mk0 "y"] [Column.mk0 "y", Column.mk0 "x"] =
        Except.error "Misordered column x on table T, should have y first" := by
  constructor
  · intro table fc tc fcs tcs hne hfrom hto
    have h1 : (tc.name == fc.name) = false := beq_eq_false_iff_ne.mpr hne
    have h2 : ((tc :: tcs).all (fun c => c.name != fc.name)) = false := by
      obtain ⟨c, hc, hcn⟩ := hfrom
      cases hall : (tc :: tcs).all (fun c => c.name != fc.name) with
      | false => rfl
      | true =>
        have hmem := List.all_eq_true.mp hall c hc
        rw [hcn] at hmem
        simp at hmem
    have h3 : ((fc :: fcs).all (fun c => c.name != tc.name)) = false := by
      obtain ⟨c, hc, hcn⟩ := hto
      cases hall : (fc :: fcs).all (fun c => c.name != tc.name) with
      | false => rfl
      | true =>
        have hmem := List.all_eq_true.mp hall c hc
        rw [hcn] at hmem
        simp at hmem
    unfold check_columns_match
    simp [h1, h2, h3]
  · rfl

/-- Witness for C3: applies the general case at a concrete input. -/
theorem misordered_column_detection_witness :
    check_columns_match (Table.mk0 "S") [Column.mk0 "p", Column.mk0 "q"] [Column.mk0 "q", Column.mk0 "p"] =
      Except.error "Misordered column p on table S, should have q first" :=
  misordered_column_detection.1 (Table.mk0 "S") (Column.mk0 "p") (Column.mk0 "q")
    [Column.mk0 "q"] [Column.mk0 "p"] (by decide) (by decide) (by decide)

/-- C4: Column-match leniency: column matching verifies name equality only,
so two tables with equal name, equal column name sequences in order, equal
primary_key_columns and equal keys pass check_table_match no matter how the
matched columns differ in any other attribute. -/
theorem check_table_match_lenient (ft tt : Table)
    (_hname : ft.name = tt.name)
    (hcols : ft.columns.map Column.name = tt.columns.map Column.name)
    (hpk : ft.primary_key_columns = tt.primary_key_columns)
    (hkeys : ft.keys = tt.keys) :
    check_table_match ft tt = Except.ok () :=
  check_table_match_ok_of_names ft tt hcols hpk hkeys

/-- Witness for C4: the two concrete tables agree on names, primary key and
keys but their single column differs in type, nullability, size, scale,
default, flags, type_restriction, reference_system, enumeration_values and
db_type_def; check_table_match still succeeds. -/
theorem check_table_match_lenient_witness :
    check_table_match lenient_from_table lenient_to_table = Except.ok () ∧
      lenient_from_column.column_type ≠ lenient_to_column.column_type ∧
      lenient_from_column.nullable ≠ lenient_to_column.nullable ∧
      lenient_from_column.size ≠ lenient_to_column.size :=
  ⟨check_table_match_lenient lenient_from_table lenient_to_table rfl rfl rfl rfl,
    by decide, by decide, by decide⟩

theorem column_eq_op_refl (c : Column) : Column.eq c c = true := by
  simp [Column.eq]

theorem key_eq_op_refl (k : Key) : Key.eq k k = true := by
  simp [Key.eq]

theorem zip_all_refl_column : ∀ l : List Column, ((l.zip l).all (fun p => Column.eq p.1 p.2)) = true := by
  intro l
  induction l with
  | nil => rfl
  | cons x xs ih => simp [List.zip_cons_cons, column_eq_op_refl, ih]

theorem zip_all_refl_key : ∀ l : List Key, ((l.zip l).all (fun p => Key.eq p.1 p.2)) = true := by
  intro l
  induction l with
  | nil => rfl
  | cons x xs ih => simp [List.zip_cons_cons, key_eq_op_refl, ih]

/-- C5 counterexample: the two databases are identical except that their one
UNKNOWN-typed column carries different db_type_def strings, and
check_schema_match succeeds rather than reporting a mismatch. -/
theorem unknown_db_type_def_counterexample :
    unknown_column_f.column_type = ColumnTypes.UNKN ∧
    unknown_column_t.column_type = ColumnTypes.UNKN ∧
    unknown_column_f.db_type_def ≠ unknown_column_t.db_type_def ∧
    scrub_database unknown_db_f = scrub_database unknown_db_t ∧
    check_schema_match unknown_db_f unknown_db_t [] [] = Except.ok () :=
  ⟨rfl, rfl, by decide, rfl, rfl⟩

/-- C5 (amended): schema matching never compares db_type_def: any two
databases that are identical except for db_type_def strings (in particular
on UNKNOWN columns) match successfully, for every filter set. -/
theorem check_schema_match_ignores_db_type_def (db1 db2 : Database) (ig onl : List String)
    (h : scrub_database db1 = scrub_database db2) :
    check_schema_match db1 db2 ig onl = Except.ok () := by
  have htables : db1.tables.map scrub_table = db2.tables.map scrub_table := congrArg Database.tables h
  have h1 : (db1.tables.map scrub_table).map table_view = db1.tables.map table_view := by
    rw [List.map_map]
    exact List.map_congr_left (fun a _ => table_view_scrub a)
  have h2 : (db2.tables.map scrub_table).map table_view = db2.tables.map table_view := by
    rw [List.map_map]
    exact List.map_congr_left (fun a _ => table_view_scrub a)
  have hview : db1.tables.map table_view = db2.tables.map table_view := by
    rw [← h1, ← h2, htables]
  unfold check_schema_match check_tables_match
  exact check_tables_walk_ok_of_view ig onl _ _ (insertionSort_view hview)

/-- Witness for C5 (amended): the two concrete databases differ only in the
db_type_def of their UNKNOWN column and match successfully. -/
theorem check_schema_match_ignores_db_type_def_witness :
    check_schema_match unknown_db_f unknown_db_t [] [] = Except.ok () :=
  check_schema_match_ignores_db_type_def unknown_db_f unknown_db_t [] [] rfl

/-- C6: the protocol version constants are 7 (earliest) and 9 (latest), but
sync_to opens negotiation by sending the hardcoded local constant 1 in the
protocol command, which is neither the latest supported version nor within
the supported range. -/
theorem protocol_version_negotiation_spec :
    EARLIEST_PROTOCOL_VERSION_SUPPORTED = 7 ∧
    LATEST_PROTOCOL_VERSION_SUPPORTED = 9 ∧
    sync_to.protocol_command = ("protocol", 1) ∧
    sync_to.protocol_command.2 ≠ LATEST_PROTOCOL_VERSION_SUPPORTED ∧
    sync_to.protocol_command.2 < EARLIEST_PROTOCOL_VERSION_SUPPORTED :=
  ⟨rfl, rfl, rfl, by decide, by decide⟩

/-- C7: the PostgreSQL normalization pass rewrites UnsignedInt to SignedInt,
gives 1-byte signed integers size 2 and 3-byte signed integers size 4,
collapses TEXT/BLOB sizes to 0, truncates key names of 63 bytes or more to
63 bytes, and changes no other column or key field. -/
theorem convert_unsupported_database_schema_spec :
    (∀ c : Column,
        (convert_unsupported_column c).name = c.name ∧
        (convert_unsupported_column c).nullable = c.nullable ∧
        (convert_unsupported_column c).scale = c.scale ∧
        (convert_unsupported_column c).default_type = c.default_type ∧
        (convert_unsupported_column c).default_value = c.default_value ∧
        (convert_unsupported_column c).flags = c.flags ∧
        (convert_unsupported_column c).type_restriction = c.type_restriction ∧
        (convert_unsupported_column c).reference_system = c.reference_system ∧
        (convert_unsupported_column c).enumeration_values = c.enumeration_values ∧
        (convert_unsupported_column c).db_type_def = c.db_type_def ∧
        (convert_unsupported_column c).column_type =
          (if c.column_type = ColumnTypes.UINT then ColumnTypes.SINT else c.column_type) ∧
        (convert_unsupported_column c).size =
          (if (if c.column_type = ColumnTypes.UINT then ColumnTypes.SINT else c.column_type) = ColumnTypes.SINT ∧ c.size = 1 then 2
           else if (if c.column_type = ColumnTypes.UINT then ColumnTypes.SINT else c.column_type) = ColumnTypes.SINT ∧ c.size = 3 then 4
           else if c.column_type = ColumnTypes.TEXT ∨ c.column_type = ColumnTypes.BLOB then 0
           else c.size))
    ∧ (∀ k : Key,
        (convert_unsupported_key k).key_type = k.key_type ∧
        (convert_unsupported_key k).columns = k.columns ∧
        (convert_unsupported_key k).name = (if 63 ≤ k.name.length then k.name.take 63 else k.name))
    ∧ (∀ db : Database,
        (convert_unsupported_database_schema db).tables = db.tables.map (fun table =>
          { table with
            columns := table.columns.map convert_unsupported_column
            keys := table.keys.map convert_unsupported_key })) := by
  refine ⟨?_, ?_, fun db => rfl⟩
  · intro c
    unfold convert_unsupported_column
    dsimp only
    split_ifs <;> simp_all [ColumnTypes.UINT, ColumnTypes.SINT, ColumnTypes.TEXT, ColumnTypes.BLOB]
  · intro k
    unfold convert_unsupported_key
    split_ifs with h <;> simp

/-- C8: the source column_default has a missing break before the default
label, so a default_expression column falls through and raises the runtime
error instead of rendering DEFAULT followed by the expression; the corrected
function renders it. -/
theorem column_default_expression_spec :
    column_default (Table.mk0 "t") expression_default_column =
        Except.error "Don\x27t know how to express default of c (3)" ∧
    column_default_corrected (Table.mk0 "t") expression_default_column =
        Except.ok " DEFAULT now()" :=
  ⟨rfl, rfl⟩

/-- C9: check_keys_match sorts both key lists with the (kind, name) order
and walks them in lockstep on names, reporting Missing key X when the to
side is exhausted or ahead, Extra key Y when behind or left over, and a
matched pair passes exactly when the unique flags and the ordered column
index lists agree, a column disagreement naming both column lists. -/
theorem check_keys_match_spec :
    (∀ (table : Table) (from_keys to_keys : List Key),
        check_keys_match table from_keys to_keys =
          check_keys_walk table (List.insertionSort Key.le from_keys) (List.insertionSort Key.le to_keys))
    ∧ (∀ ks : List Key, List.Sorted Key.le (List.insertionSort Key.le ks))
    ∧ (∀ a b : Key, Key.lt a b ↔
        (a.key_type.toNat < b.key_type.toNat ∨ (a.key_type = b.key_type ∧ a.name < b.name)))
    ∧ (∀ (table : Table) (fk : Key) (fks : List Key),
        check_keys_walk table (fk :: fks) [] =
          Except.error ("Missing key " ++ fk.name ++ " on table " ++ table.name))
    ∧ (∀ (table : Table) (fk tk : Key) (fks tks : List Key),
        fk.name < tk.name →
        check_keys_walk table (fk :: fks) (tk :: tks) =
          Except.error ("Missing key " ++ fk.name ++ " on table " ++ table.name))
    ∧ (∀ (table : Table) (fk tk : Key) (fks tks : List Key),
        tk.name < fk.name →
        check_keys_walk table (fk :: fks) (tk :: tks) =
          Except.error ("Extra key " ++ tk.name ++ " on table " ++ table.name))
    ∧ (∀ (table : Table) (tk : Key) (tks : List Key),
        check_keys_walk table [] (tk :: tks) =
          Except.error ("Extra key " ++ tk.name ++ " on table " ++ table.name))
    ∧ (∀ (table : Table) (fk tk : Key),
        check_key_match table fk tk = Except.ok () ↔ (fk.unique = tk.unique ∧ fk.columns = tk.columns))
    ∧ (∀ (table : Table) (fk tk : Key),
        fk.unique = tk.unique → fk.columns ≠ tk.columns →
        check_key_match table fk tk =
          Except.error ("Mismatching columns " ++ columns_list table.columns tk.columns ++ " on table " ++ table.name ++ " key " ++ fk.name ++ ", should have " ++ columns_list table.columns fk.columns)) := by
  refine ⟨fun _ _ _ => rfl, fun ks => List.sorted_insertionSort Key.le ks, Key.lt_iff,
    fun _ _ _ => rfl, ?_, ?_, fun _ _ _ => rfl, ?_, ?_⟩
  · intro table fk tk fks tks hlt
    unfold check_keys_walk
    rw [if_pos hlt]
  · intro table fk tk fks tks hlt
    unfold check_keys_walk
    rw [if_neg (not_lt.mpr (le_of_lt hlt)), if_pos hlt]
  · intro table fk tk
    unfold check_key_match
    constructor
    · intro h
      by_cases h1 : fk.unique = tk.unique
      · by_cases h2 : fk.columns = tk.columns
        · exact ⟨h1, h2⟩
        · rw [if_neg (not_not_intro h1), if_pos h2] at h
          simp at h
      · rw [if_pos h1] at h
        simp at h
    · rintro ⟨h1, h2⟩
      rw [if_neg (not_not_intro h1), if_neg (not_not_intro h2)]
  · intro table fk tk h1 h2
    unfold check_key_match
    rw [if_neg (not_not_intro h1), if_pos h2]

/-- Witness for C9: applies the ahead case at a concrete input. -/
theorem check_keys_match_spec_witness :
    check_keys_walk (Table.mk0 "t") [Key.mk0 "a" KeyType.standard_key] [Key.mk0 "b" KeyType.standard_key] =
      Except.error "Missing key a on table t" :=
  check_keys_match_spec.2.2.2.2.1 (Table.mk0 "t")
    (Key.mk0 "a" KeyType.standard_key) (Key.mk0 "b" KeyType.standard_key) [] [] (by decide)

/-- C10: Table equality compares primary_key_columns only when
primary_key_type is explicit_primary_key: tables with equal name, columns
and keys compare equal even with different primary_key_columns, provided
neither side is explicit. -/
theorem table_eq_ignores_surrogate_primary_key (t o : Table)
    (hname : t.name = o.name) (hcols : t.columns = o.columns) (hkeys : t.keys = o.keys)
    (ht : t.primary_key_type ≠ PrimaryKeyType.explicit_primary_key)
    (ho : o.primary_key_type ≠ PrimaryKeyType.explicit_primary_key) :
    Table.eq t o = true := by
  unfold Table.eq Table.same_primary_key_as
  rw [hname, hcols, hkeys]
  rw [if_neg ht, if_neg ho]
  simp [zip_all_refl_column, zip_all_refl_key]

/-- Witness for C10: the two concrete tables have different
primary_key_columns, neither has an explicit primary key, and they compare
equal. -/
theorem table_eq_ignores_surrogate_primary_key_witness :
    Table.eq surrogate_table_f surrogate_table_t = true ∧
      surrogate_table_f.primary_key_columns ≠ surrogate_table_t.primary_key_columns :=
  ⟨table_eq_ignores_surrogate_primary_key surrogate_table_f surrogate_table_t rfl rfl rfl
      (by decide) (by decide),
    by decide⟩
